import Mathlib

/-
Verification of the UserPreferences store and its propagation engine
(src/request-data/user-preferences/preferences.js).

The development shallowly embeds:
  * the Normalizer Registry surface used by the two proxies (the file
    normalizers.js is not part of the sources, so the registry is modelled
    from the specification),
  * the site proxy and the projects proxy traps (set, deleteProperty, get),
  * the request construction performed by the private method request,
  * the two lock names computed in the private method propagate,
  * the propagation engine itself, as a small-step transition system over
    an explicit scheduler: decisions are serialized in call order (the
    lockops lock is FIFO), per-slot locks have a holder and a FIFO wait
    queue, and the abort-controller table is keyed by the preference key
    name alone, exactly as in the source.
-/

namespace UserPrefs

/-- A backend-serializable preference value. Values are opaque to all of the
logic under verification (only the per-key normalizers inspect them), so a
small closed universe suffices. -/
inductive JsValue where
  | str (s : String)
  | num (n : Int)
  | boolean (b : Bool)
deriving DecidableEq, Repr

/-- The synchronous failures the store can raise: the two normalizer errors,
the TypeError raised by the projects proxy for a malformed project id, and
the two unconditional errors raised by the whole-collection traps. -/
inductive PrefError where
  | unregistered (k : String)
  | invalidValue (k : String)
  | notAnIntegerProjectId (pid : String)
  | unsupportedSetProject
  | unsupportedDeleteProject
deriving DecidableEq, Repr

/-- A preference container: a finite mapping from key names to values,
embedded as a function into Option. -/
def Container : Type := String → Option JsValue

/-- Pointwise update of a container (property write or delete). -/
def updContainer (c : Container) (k : String) (v : Option JsValue) : Container :=
  fun k2 => if k2 = k then v else c k2

/-- The empty container. -/
def emptyContainer : Container := fun _ => none

/-- Modelled from the spec: normalizers.js is not among the sources. The
Normalizer Registry holds one normalization function per registered key
(`normalizeFn` returns none for an unregistered key, and the function itself
returns none when it rejects a value), plus the per-key defaults the read
transform may supply for absent keys. -/
structure Registry where
  normalizeFn : String → Option (JsValue → Option JsValue)
  defaultFor : String → Option JsValue

/-- Modelled from the spec: Registry.normalize fails with a validation error
if the key is not registered or the value does not satisfy the rule of the
key, and otherwise returns the normalized value. Pure, so callers can
validate before mutating state. -/
def Registry.normalize (reg : Registry) (k : String) (v : JsValue) :
    Except PrefError JsValue :=
  match reg.normalizeFn k with
  | none => .error (.unregistered k)
  | some f =>
    match f v with
    | none => .error (.invalidValue k)
    | some nv => .ok nv

/-- Modelled from the spec: the read transform getProp returns the stored
value when the key is present and may supply a registry default when it is
absent; it never mutates the container. -/
def Registry.getProp (reg : Registry) (c : Container) (k : String) :
    Option JsValue :=
  match c k with
  | some v => some v
  | none => reg.defaultFor k

/-- The arguments of one call to the private method propagate:
the key name, the value (none is the deletion sentinel null), and the
project id (none for the site scope). -/
structure PropagateArgs where
  k : String
  v : Option JsValue
  projectId : Option String
deriving DecidableEq, Repr

/-- The request body: the code sends the value wrapped as propertyValue. -/
structure RequestBody where
  propertyValue : JsValue
deriving DecidableEq, Repr

/-- The shape of one outbound HTTP request built by the private method
request: method, url, and optional body. -/
structure HttpRequestModel where
  method : String
  url : String
  data : Option RequestBody
deriving DecidableEq, Repr

/-- Modelled from the spec: apiPaths lives in util/request, which is not
among the sources. The logical site endpoint is siteKey/ followed by the
key name. -/
def userSitePreferencesPath (k : String) : String :=
  "siteKey/" ++ k

/-- Modelled from the spec: the logical project endpoint is projects/ then
the project id, then /key/ and the key name. -/
def userProjectPreferencesPath (pid : String) (k : String) : String :=
  "projects/" ++ pid ++ "/key/" ++ k

/-- The request built by the private method request from the propagate
arguments: DELETE with absent body when the value is the deletion sentinel,
PUT carrying the value otherwise; the url is the site endpoint when the
project id is null and the project endpoint otherwise. -/
def requestFor (a : PropagateArgs) : HttpRequestModel :=
  { method := match a.v with | none => "DELETE" | some _ => "PUT"
    url := match a.projectId with
      | none => userSitePreferencesPath a.k
      | some pid => userProjectPreferencesPath pid a.k
    data := match a.v with | none => none | some v => some ⟨v⟩ }

/-- The set trap of the site proxy: normalize first (an error leaves the
container untouched and hands nothing to the engine), then store the
normalized value and hand off a PUT propagation. The result is the container
afterwards, the propagate call handed off if any, and the error if any. -/
def siteProxySet (reg : Registry) (target : Container) (prop : String)
    (value : JsValue) :
    Container × Option PropagateArgs × Option PrefError :=
  match reg.normalize prop value with
  | .error e => (target, none, some e)
  | .ok nv =>
    (updContainer target prop (some nv), some ⟨prop, some nv, none⟩, none)

/-- The deleteProperty trap of the site proxy: normalizeFn is called first
(it throws for an unregistered key), then the property is removed and a
DELETE propagation is handed off. -/
def siteProxyDeleteProperty (reg : Registry) (target : Container)
    (prop : String) :
    Container × Option PropagateArgs × Option PrefError :=
  match reg.normalizeFn prop with
  | none => (target, none, some (.unregistered prop))
  | some _ =>
    (updContainer target prop none, some ⟨prop, none, none⟩, none)

/-- The get trap of the site proxy delegates to the read transform. -/
def siteProxyGet (reg : Registry) (target : Container) (prop : String) :
    Option JsValue :=
  reg.getProp target prop

/-- The set trap of one project sub-container proxy: like the site one, but
with the project normalizers and the project id in the handed-off call. -/
def projectPropSet (reg : Registry) (projectId : String) (tgt : Container)
    (prop : String) (propval : JsValue) :
    Container × Option PropagateArgs × Option PrefError :=
  match reg.normalize prop propval with
  | .error e => (tgt, none, some e)
  | .ok nv =>
    (updContainer tgt prop (some nv), some ⟨prop, some nv, some projectId⟩,
      none)

/-- The deleteProperty trap of one project sub-container proxy. -/
def projectPropDeleteProperty (reg : Registry) (projectId : String)
    (tgt : Container) (prop : String) :
    Container × Option PropagateArgs × Option PrefError :=
  match reg.normalizeFn prop with
  | none => (tgt, none, some (.unregistered prop))
  | some _ =>
    (updContainer tgt prop none, some ⟨prop, none, some projectId⟩, none)

/-- The get trap of one project sub-container proxy delegates to the read
transform of the project registry. -/
def projectPropGet (reg : Registry) (tgt : Container) (prop : String) :
    Option JsValue :=
  reg.getProp tgt prop

/-- One stored project sub-container. ident is the object identity (a fresh
allocation number), reactive is the isReactive flag. Modelled from the spec
for the part the sources do not show: the wrapper built by the projects
proxy (a proxy over a shallowReactive object, read through getProp of
normalizers.js) tests as reactive, per the identity-stability invariant of
the spec; raw snapshot data tests as not reactive. -/
structure SubContainer where
  ident : Nat
  reactive : Bool
  data : Container

/-- The projects mapping: project id (a property key, hence a string)
to stored sub-container. -/
def ProjectsState : Type := String → Option SubContainer

/-- Pointwise update of the projects mapping. -/
def updProjects (st : ProjectsState) (pid : String)
    (sc : Option SubContainer) : ProjectsState :=
  fun p => if p = pid then sc else st p

/-- The empty projects mapping. -/
def emptyProjects : ProjectsState := fun _ => none

/-- The regular expression test applied by the get trap of the projects
proxy to the property key: one or more decimal digits, anchored at both
ends. -/
def jsIntRegexTest (s : String) : Bool :=
  !s.data.isEmpty && s.data.all (fun c => c.isDigit)

/-- The get trap of the projects proxy. The id is validated first (a
TypeError leaves the mapping untouched); then, when no sub-container is
stored or the stored one is not reactive, a reactive wrapper is built
around the existing data (or around an empty object when there is none),
stored, and returned; otherwise the stored sub-container is returned
unchanged. fresh is the next free identity; the result is the outcome, the
mapping afterwards, and the next free identity afterwards. -/
def projectsProxyGet (st : ProjectsState) (fresh : Nat) (projectId : String) :
    (Except PrefError SubContainer) × ProjectsState × Nat :=
  if jsIntRegexTest projectId then
    match st projectId with
    | some sc =>
      if sc.reactive then (.ok sc, st, fresh)
      else
        (.ok ⟨fresh, true, sc.data⟩,
          updProjects st projectId (some ⟨fresh, true, sc.data⟩), fresh + 1)
    | none =>
      (.ok ⟨fresh, true, emptyContainer⟩,
        updProjects st projectId (some ⟨fresh, true, emptyContainer⟩),
        fresh + 1)
  else (.error (.notAnIntegerProjectId projectId), st, fresh)

/-- The set trap of the projects proxy: assigning a whole sub-container
always throws and leaves the mapping untouched. -/
def projectsProxySet (st : ProjectsState) (_pid : String) (_v : JsValue) :
    Option PrefError × ProjectsState :=
  (some .unsupportedSetProject, st)

/-- The deleteProperty trap of the projects proxy: deleting a whole
sub-container always throws and leaves the mapping untouched. -/
def projectsProxyDeleteProperty (st : ProjectsState) (_pid : String) :
    Option PrefError × ProjectsState :=
  (some .unsupportedDeleteProject, st)

/-- The fields of one UserPreferences instance that the lock names depend
on. instanceID is the private class field (a fresh random UUID per
instance). -/
structure UserPreferencesFields where
  instanceID : String

/-- The property lookup this.instanceID performed in the private method
propagate when it builds the name of the process-wide coordination lock.
The class declares only the private field (hash-prefixed) instanceID and
the public fields site and projects, so this public lookup yields
undefined for every instance. -/
def publicInstanceID (_self : UserPreferencesFields) : Option String :=
  none

/-- JS template-literal rendering of a possibly undefined value. -/
def jsUndefToString : Option String → String
  | none => "undefined"
  | some s => s

/-- JS template-literal rendering of a possibly null value. -/
def jsNullToString : Option String → String
  | none => "null"
  | some s => s

/-- The name of the process-wide coordination lock requested first by the
private method propagate, built by interpolating this.instanceID. -/
def lockopsLockName (self : UserPreferencesFields) : String :=
  "userPreferences-" ++ jsUndefToString (publicInstanceID self) ++ "-lockops"

/-- The per-slot lock name built by the private method propagate, by
interpolating the private field instanceID, the project id (null for the
site scope) and the key name. -/
def keyLockName (self : UserPreferencesFields) (projectId : Option String)
    (k : String) : String :=
  "userPreferences-" ++ self.instanceID ++ "-keystack-" ++
    jsNullToString projectId ++ "-" ++ k

/-- A slot: the unit of propagation serialization, identified by the
optional project id (none for the site scope) and the key name. The
per-slot lock name is built from exactly these two components. -/
structure Slot where
  projectId : Option String
  key : String
deriving DecidableEq, Repr

/-- One call to the private method propagate, as seen by the engine: the
slot written, and the value (none is the deletion sentinel). -/
structure PropCall where
  slot : Slot
  value : Option JsValue
deriving DecidableEq, Repr

/-- A placeholder propagation used for out-of-range lookups. -/
def pcDefault : PropCall := ⟨⟨none, ""⟩, none⟩

/-- The propagation of index i in a fixed list of calls. -/
def propAt (props : List PropCall) (i : Nat) : PropCall :=
  props.getD i pcDefault

/-- The events the engine emits, recorded in issuance order:
decided i marks the serialized decision of propagation i (the body run
under the lockops lock and the immediate availability test of the slot
lock); issued i marks the HTTP request of propagation i being handed to
the transport with a fresh abort controller recorded; abortSent b t means
the decision of propagation b called abort on the controller recorded for
its key name, which belonged to request t; settledC i c means the request
of propagation i settled, c = true for a normal completion and c = false
for a cancellation. -/
inductive REvent where
  | decided (i : Nat)
  | issued (i : Nat)
  | abortSent (b : Nat) (t : Nat)
  | settledC (i : Nat) (c : Bool)
deriving DecidableEq, Repr

/-- A scheduler action: run the next serialized decision, or settle the
in-flight request of propagation r. -/
inductive EAction where
  | decide
  | settle (r : Nat)
deriving DecidableEq, Repr

/-- The engine state. nextDecision is the index of the next propagation
whose decision the FIFO lockops lock will admit; holder and waiting are
the per-slot Web Locks state (current holder and FIFO queue of blocked
re-acquisitions); recorded is the abortControllers table of the source,
keyed by the key name alone (not by the whole slot); abortedAt marks the
requests whose controller was aborted; inFlight marks the issued,
not-yet-settled requests; log is the event trace. -/
structure EngineState where
  nextDecision : Nat
  holder : Slot → Option Nat
  waiting : Slot → List Nat
  recorded : String → Option Nat
  abortedAt : Nat → Bool
  inFlight : Nat → Bool
  log : List REvent

/-- The initial engine state. -/
def engineInit : EngineState :=
  { nextDecision := 0
    holder := fun _ => none
    waiting := fun _ => []
    recorded := fun _ => none
    abortedAt := fun _ => false
    inFlight := fun _ => false
    log := [] }

/-- One serialized decision (the lockops-protected body of the private
method propagate). If the slot lock is immediately available, the new
controller is recorded for the key name and the request is issued at once
under the slot lock. Otherwise the controller currently recorded for the
key name is aborted and the propagation joins the FIFO queue of the slot
lock; its request will be issued when the lock is handed over. The source
reads the recorded controller without a null check; that read cannot find
the entry missing while the slot lock is held, since every holder recorded
itself at issuance, so the none case below only keeps the function total. -/
def stepDecide (props : List PropCall) (st : EngineState) : EngineState :=
  if st.nextDecision < props.length then
    match st.holder (propAt props st.nextDecision).slot with
    | none =>
      { nextDecision := st.nextDecision + 1
        holder := fun s =>
          if s = (propAt props st.nextDecision).slot then
            some st.nextDecision
          else st.holder s
        waiting := st.waiting
        recorded := fun k =>
          if k = (propAt props st.nextDecision).slot.key then
            some st.nextDecision
          else st.recorded k
        abortedAt := st.abortedAt
        inFlight := fun r =>
          if r = st.nextDecision then true else st.inFlight r
        log := st.log ++
          [REvent.decided st.nextDecision, REvent.issued st.nextDecision] }
    | some _ =>
      match st.recorded (propAt props st.nextDecision).slot.key with
      | some t =>
        { nextDecision := st.nextDecision + 1
          holder := st.holder
          waiting := fun s =>
            if s = (propAt props st.nextDecision).slot then
              st.waiting s ++ [st.nextDecision]
            else st.waiting s
          recorded := st.recorded
          abortedAt := fun r => if r = t then true else st.abortedAt r
          inFlight := st.inFlight
          log := st.log ++
            [REvent.decided st.nextDecision,
              REvent.abortSent st.nextDecision t] }
      | none =>
        { nextDecision := st.nextDecision + 1
          holder := st.holder
          waiting := fun s =>
            if s = (propAt props st.nextDecision).slot then
              st.waiting s ++ [st.nextDecision]
            else st.waiting s
          recorded := st.recorded
          abortedAt := st.abortedAt
          inFlight := st.inFlight
          log := st.log ++ [REvent.decided st.nextDecision] }
  else st

/-- Settlement of the in-flight request of propagation r: the settlement is
a normal completion exactly when the controller of r was never aborted.
Settling releases the slot lock of r; when the FIFO queue of that lock is
not empty the lock is handed to the head q, whose controller is then
recorded for the key name and whose request is issued. -/
def stepSettle (props : List PropCall) (st : EngineState) (r : Nat) :
    EngineState :=
  if st.inFlight r then
    match st.waiting (propAt props r).slot with
    | [] =>
      { nextDecision := st.nextDecision
        holder := fun s =>
          if s = (propAt props r).slot then none else st.holder s
        waiting := st.waiting
        recorded := st.recorded
        abortedAt := st.abortedAt
        inFlight := fun x => if x = r then false else st.inFlight x
        log := st.log ++ [REvent.settledC r (!st.abortedAt r)] }
    | q :: rest =>
      { nextDecision := st.nextDecision
        holder := fun s =>
          if s = (propAt props r).slot then some q else st.holder s
        waiting := fun s =>
          if s = (propAt props r).slot then rest else st.waiting s
        recorded := fun k =>
          if k = (propAt props r).slot.key then some q else st.recorded k
        abortedAt := st.abortedAt
        inFlight := fun x =>
          if x = q then true else if x = r then false else st.inFlight x
        log := st.log ++
          [REvent.settledC r (!st.abortedAt r), REvent.issued q] }
  else st

/-- One scheduler step. -/
def engineStep (props : List PropCall) (st : EngineState) :
    EAction → EngineState
  | .decide => stepDecide props st
  | .settle r => stepSettle props st r

/-- Run the engine over a schedule. -/
def engineRun (props : List PropCall) (acts : List EAction) : EngineState :=
  acts.foldl (engineStep props) engineInit

/-- The inductive invariant of the engine: decisions never run past the end
of the call list; every recorded controller and every queued propagation
belongs to an already-decided propagation; every abort was sent by a
decision at a strictly earlier propagation; every aborted request is
strictly older than the latest decision; and a cancelled settlement only
ever happens to an aborted request. -/
def EngineInv (props : List PropCall) (st : EngineState) : Prop :=
  st.nextDecision ≤ props.length ∧
  (∀ k j, st.recorded k = some j → j < st.nextDecision) ∧
  (∀ s j, j ∈ st.waiting s → j < st.nextDecision) ∧
  (∀ b t, REvent.abortSent b t ∈ st.log → t < b ∧ b < st.nextDecision) ∧
  (∀ r, st.abortedAt r = true → r + 1 < st.nextDecision) ∧
  (∀ r, REvent.settledC r false ∈ st.log → st.abortedAt r = true)

theorem engineInv_init (props : List PropCall) :
    EngineInv props engineInit := by
  refine ⟨Nat.zero_le _, ?_, ?_, ?_, ?_, ?_⟩ <;>
    simp [engineInit]

theorem engineInv_step (props : List PropCall) (st : EngineState)
    (a : EAction) (h : EngineInv props st) :
    EngineInv props (engineStep props st a) := by
  obtain ⟨h1, h2, h3, h4, h5, h6⟩ := h
  cases a with
  | decide =>
    show EngineInv props (stepDecide props st)
    unfold stepDecide
    split
    case isFalse => exact ⟨h1, h2, h3, h4, h5, h6⟩
    case isTrue hlt =>
      split
      · -- the slot lock is free: issue at once
        refine ⟨?_, ?_, ?_, ?_, ?_, ?_⟩ <;> dsimp only
        · omega
        · intro k j hj
          split at hj
          · have := Option.some.inj hj; omega
          · have := h2 k j hj; omega
        · intro s j hj
          have := h3 s j hj; omega
        · intro b t hbt
          simp only [List.mem_append, List.mem_cons,
            List.not_mem_nil, or_false] at hbt
          rcases hbt with hbt | hbt | hbt
          · have := h4 b t hbt; omega
          · exact absurd hbt (by simp)
          · exact absurd hbt (by simp)
        · intro r hr
          have := h5 r hr; omega
        · intro r hr
          simp only [List.mem_append, List.mem_cons,
            List.not_mem_nil, or_false] at hr
          rcases hr with hr | hr | hr
          · exact h6 r hr
          · exact absurd hr (by simp)
          · exact absurd hr (by simp)
      · -- held: abort the recorded controller and queue up
        rename_i w hh
        split
        · rename_i t hrec
          have ht : t < st.nextDecision :=
            h2 (propAt props st.nextDecision).slot.key t hrec
          refine ⟨?_, ?_, ?_, ?_, ?_, ?_⟩ <;> dsimp only
          · omega
          · intro k j hj
            have := h2 k j hj; omega
          · intro s j hj
            split at hj
            · rcases List.mem_append.mp hj with hj | hj
              · have := h3 _ j hj; omega
              · simp only [List.mem_cons, List.not_mem_nil, or_false] at hj
                omega
            · have := h3 s j hj; omega
          · intro b t2 hbt
            simp only [List.mem_append, List.mem_cons,
              List.not_mem_nil, or_false] at hbt
            rcases hbt with hbt | hbt | hbt
            · have := h4 b t2 hbt; omega
            · exact absurd hbt (by simp)
            · rw [REvent.abortSent.injEq] at hbt
              rcases hbt with ⟨hb, ht2⟩
              subst hb; subst ht2; omega
          · intro r hr
            split at hr
            · omega
            · have := h5 r hr; omega
          · intro r hr
            simp only [List.mem_append, List.mem_cons,
              List.not_mem_nil, or_false] at hr
            rcases hr with hr | hr | hr
            · have := h6 r hr
              split
              · rfl
              · exact this
            · exact absurd hr (by simp)
            · exact absurd hr (by simp)
        · -- no controller recorded (kept total; not reachable under a held lock)
          refine ⟨?_, ?_, ?_, ?_, ?_, ?_⟩ <;> dsimp only
          · omega
          · intro k j hj
            have := h2 k j hj; omega
          · intro s j hj
            split at hj
            · rcases List.mem_append.mp hj with hj | hj
              · have := h3 _ j hj; omega
              · simp only [List.mem_cons, List.not_mem_nil, or_false] at hj
                omega
            · have := h3 s j hj; omega
          · intro b t hbt
            simp only [List.mem_append, List.mem_cons,
              List.not_mem_nil, or_false] at hbt
            rcases hbt with hbt | hbt
            · have := h4 b t hbt; omega
            · exact absurd hbt (by simp)
          · intro r hr
            have := h5 r hr; omega
          · intro r hr
            simp only [List.mem_append, List.mem_cons,
              List.not_mem_nil, or_false] at hr
            rcases hr with hr | hr
            · exact h6 r hr
            · exact absurd hr (by simp)
  | settle r =>
    show EngineInv props (stepSettle props st r)
    unfold stepSettle
    split
    case isFalse => exact ⟨h1, h2, h3, h4, h5, h6⟩
    case isTrue hif =>
      split
      · -- empty queue: release the lock
        refine ⟨h1, h2, h3, ?_, h5, ?_⟩ <;> dsimp only
        · intro b t hbt
          simp only [List.mem_append, List.mem_cons,
            List.not_mem_nil, or_false] at hbt
          rcases hbt with hbt | hbt
          · exact h4 b t hbt
          · exact absurd hbt (by simp)
        · intro r2 hr2
          simp only [List.mem_append, List.mem_cons,
            List.not_mem_nil, or_false] at hr2
          rcases hr2 with hr2 | hr2
          · exact h6 r2 hr2
          · rw [REvent.settledC.injEq] at hr2
            rcases hr2 with ⟨hr2, hc⟩
            subst hr2
            simpa using hc.symm
      · -- hand the lock to the head of the queue and issue its request
        rename_i q rest hw
        have hq : q ∈ st.waiting (propAt props r).slot := by
          rw [hw]; exact List.mem_cons_self q rest
        refine ⟨h1, ?_, ?_, ?_, h5, ?_⟩ <;> dsimp only
        · intro k j hj
          split at hj
          · have hqj : q = j := Option.some.inj hj
            subst hqj
            exact h3 _ q hq
          · exact h2 k j hj
        · intro s j hj
          split at hj
          · have : j ∈ st.waiting (propAt props r).slot := by
              rw [hw]; exact List.mem_cons_of_mem q hj
            exact h3 _ j this
          · exact h3 s j hj
        · intro b t hbt
          simp only [List.mem_append, List.mem_cons,
            List.not_mem_nil, or_false] at hbt
          rcases hbt with hbt | hbt | hbt
          · exact h4 b t hbt
          · exact absurd hbt (by simp)
          · exact absurd hbt (by simp)
        · intro r2 hr2
          simp only [List.mem_append, List.mem_cons,
            List.not_mem_nil, or_false] at hr2
          rcases hr2 with hr2 | hr2 | hr2
          · exact h6 r2 hr2
          · rw [REvent.settledC.injEq] at hr2
            rcases hr2 with ⟨hr2, hc⟩
            subst hr2
            simpa using hc.symm
          · exact absurd hr2 (by simp)

theorem engineInv_run (props : List PropCall) (acts : List EAction) :
    EngineInv props (engineRun props acts) := by
  suffices h : ∀ st, EngineInv props st →
      EngineInv props (List.foldl (engineStep props) st acts) from
    h engineInit (engineInv_init props)
  induction acts with
  | nil => intro st h; exact h
  | cons a as ih =>
    intro st h
    exact ih (engineStep props st a) (engineInv_step props st a h)

/-- A rapid same-slot burst of three writes: set a, set b, set c on the
site key sortOrder. -/
def burstSlot : Slot := ⟨none, "sortOrder"⟩

/-- The three propagations of the burst. -/
def burstProps : List PropCall :=
  [⟨burstSlot, some (.str "a")⟩, ⟨burstSlot, some (.str "b")⟩,
    ⟨burstSlot, some (.str "c")⟩]

/-- The schedule of the burst: the three serialized decisions run before
any request settles (the rapid case), then the requests settle in issuance
order. -/
def burstActs : List EAction :=
  [.decide, .decide, .decide, .settle 0, .settle 1, .settle 2]

/-- Three propagations on two distinct slots sharing the key name foo:
project 1, then project 2, then project 1 again. -/
def crossProps : List PropCall :=
  [⟨⟨some "1", "foo"⟩, some (.str "a")⟩,
    ⟨⟨some "2", "foo"⟩, some (.str "b")⟩,
    ⟨⟨some "1", "foo"⟩, some (.str "c")⟩]

/-- The three decisions run while the first two requests are in flight;
then the request of project 2 settles. -/
def crossActs : List EAction := [.decide, .decide, .decide, .settle 1]

/-- A registry with no registered key. -/
def regEmpty : Registry := ⟨fun _ => none, fun _ => none⟩

/-- A registry whose normalizers reject every value. -/
def regReject : Registry := ⟨fun _ => some (fun _ => none), fun _ => none⟩

/-- A registry whose normalizers replace every value by a fixed one,
distinct from the raw input used in the witness. -/
def regConst : Registry :=
  ⟨fun _ => some (fun _ => some (.str "normalized")), fun _ => none⟩

/-- A registry whose normalizers accept every value unchanged. -/
def regId : Registry := ⟨fun _ => some (fun v => some v), fun _ => none⟩

/-- Two instances with distinct private instance ids. -/
def instanceA : UserPreferencesFields := ⟨"uuid-aaaa"⟩

/-- A second instance. -/
def instanceB : UserPreferencesFields := ⟨"uuid-bbbb"⟩

/-- A snapshot sub-container for project 42 holding color = green. -/
def snapColor : Container :=
  updContainer emptyContainer "color" (some (.str "green"))

/-- A projects snapshot holding raw (not yet reactive) data for
project 42. -/
def snapProjects : ProjectsState :=
  updProjects emptyProjects "42" (some ⟨0, false, snapColor⟩)

/-- Claim C1, counterexample. In the rapid burst set a, set b, set c on one
slot, run under the schedule in which all three serialized decisions happen
before any request settles, the engine issues the request carrying b after
the decision of the propagation carrying c has run, and that request
completes normally: the completed requests are those of b and of c, so an
outbound request that does not carry the most recently set value is allowed
to complete after the burst, and an older value has its request issued
after a newer value had begun (and finished) its decision. -/
theorem burst_intermediate_request_completes :
    (engineRun burstProps burstActs).log =
      [.decided 0, .issued 0, .decided 1, .abortSent 1 0, .decided 2,
        .abortSent 2 0, .settledC 0 false, .issued 1, .settledC 1 true,
        .issued 2, .settledC 2 true] ∧
    (propAt burstProps 1).value = some (.str "b") ∧
    (propAt burstProps 2).value = some (.str "c") ∧
    ((engineRun burstProps burstActs).log.indexOf (REvent.decided 2) <
      (engineRun burstProps burstActs).log.indexOf (REvent.issued 1)) ∧
    REvent.settledC 1 true ∈ (engineRun burstProps burstActs).log ∧
    REvent.settledC 2 true ∈ (engineRun burstProps burstActs).log := by
  decide

/-- Claim C1, amended: in a same-slot burst, every abort is sent by a later
decision and targets a strictly earlier, already-superseded propagation,
and never targets the final one; consequently the request carrying the most
recently set value never settles as a cancellation, so whenever exactly one
request completes it is the one carrying the most recent value. (The
original claim is refuted by the counterexample: with three or more rapid
sets an intermediate value may still have its request issued, after the
newest decision, and complete before the final request is issued.) -/
theorem burst_final_request_never_cancelled (s : Slot)
    (props : List PropCall) (acts : List EAction)
    (_hslot : ∀ p ∈ props, p.slot = s) :
    (∀ b t, REvent.abortSent b t ∈ (engineRun props acts).log →
      t < b ∧ t + 1 < props.length) ∧
    REvent.settledC (props.length - 1) false ∉
      (engineRun props acts).log := by
  obtain ⟨h1, h2, h3, h4, h5, h6⟩ := engineInv_run props acts
  constructor
  · intro b t hmem
    have := h4 b t hmem
    omega
  · intro hmem
    have := h5 _ (h6 _ hmem)
    omega

/-- Witness for the amended claim C1, at the concrete burst. -/
theorem burst_final_request_never_cancelled_witness :
    REvent.settledC 2 false ∉ (engineRun burstProps burstActs).log :=
  (burst_final_request_never_cancelled burstSlot burstProps burstActs
    (by decide)).2

/-- Claim C2 is violated by the code: the abort-controller table is keyed
by the key name alone, so a propagation on slot (project 1, foo), finding
its own slot lock unavailable, aborts the controller most recently recorded
for the key name foo, which here belongs to the in-flight request of the
distinct slot (project 2, foo); that request of the other slot then settles
as a cancellation. -/
theorem abort_crosses_slots :
    REvent.abortSent 2 1 ∈ (engineRun crossProps crossActs).log ∧
    (propAt crossProps 1).slot ≠ (propAt crossProps 2).slot ∧
    (propAt crossProps 2).slot = (propAt crossProps 0).slot ∧
    REvent.settledC 1 false ∈ (engineRun crossProps crossActs).log := by
  decide

/-- Claim C3: a set with an unregistered key or a value the normalizer
rejects, and a delete with an unregistered key, fail synchronously on both
the site container and a project sub-container, leaving the container
exactly as it was and handing nothing to the propagation engine. -/
theorem validation_gate_unchanged (sReg pReg : Registry) (c pc : Container)
    (pid k : String) (v : JsValue) :
    (∀ e, sReg.normalize k v = .error e →
      siteProxySet sReg c k v = (c, none, some e)) ∧
    (sReg.normalizeFn k = none →
      siteProxyDeleteProperty sReg c k =
        (c, none, some (.unregistered k))) ∧
    (∀ e, pReg.normalize k v = .error e →
      projectPropSet pReg pid pc k v = (pc, none, some e)) ∧
    (pReg.normalizeFn k = none →
      projectPropDeleteProperty pReg pid pc k =
        (pc, none, some (.unregistered k))) := by
  refine ⟨?_, ?_, ?_, ?_⟩
  · intro e he; simp [siteProxySet, he]
  · intro he; simp [siteProxyDeleteProperty, he]
  · intro e he; simp [projectPropSet, he]
  · intro he; simp [projectPropDeleteProperty, he]

/-- Witness for claim C3: unregistered key, and rejected value, on concrete
containers. -/
theorem validation_gate_unchanged_witness :
    regEmpty.normalize "k" (.str "x") = .error (.unregistered "k") ∧
    siteProxySet regEmpty emptyContainer "k" (.str "x") =
      (emptyContainer, none, some (.unregistered "k")) ∧
    regReject.normalize "k" (.str "x") = .error (.invalidValue "k") ∧
    siteProxySet regReject emptyContainer "k" (.str "x") =
      (emptyContainer, none, some (.invalidValue "k")) ∧
    siteProxyDeleteProperty regEmpty emptyContainer "k" =
      (emptyContainer, none, some (.unregistered "k")) ∧
    projectPropSet regEmpty "7" emptyContainer "k" (.str "x") =
      (emptyContainer, none, some (.unregistered "k")) ∧
    projectPropDeleteProperty regEmpty "7" emptyContainer "k" =
      (emptyContainer, none, some (.unregistered "k")) :=
  ⟨rfl,
    (validation_gate_unchanged regEmpty regEmpty emptyContainer
      emptyContainer "7" "k" (.str "x")).1 _ rfl,
    rfl,
    (validation_gate_unchanged regReject regReject emptyContainer
      emptyContainer "7" "k" (.str "x")).1 _ rfl,
    (validation_gate_unchanged regEmpty regEmpty emptyContainer
      emptyContainer "7" "k" (.str "x")).2.1 rfl,
    (validation_gate_unchanged regEmpty regEmpty emptyContainer
      emptyContainer "7" "k" (.str "x")).2.2.1 _ rfl,
    (validation_gate_unchanged regEmpty regEmpty emptyContainer
      emptyContainer "7" "k" (.str "x")).2.2.2 rfl⟩

/-- Claim C4 is violated by the code: the per-slot lock name interpolates
the private field instanceID, but the coordination lock name interpolates
this.instanceID, a public property the class never declares, which is
undefined; so every instance, whatever its private instance id, uses the
same coordination lock name, and two instances with distinct ids do
contend for it. -/
theorem lockops_name_shared_across_instances :
    instanceA.instanceID ≠ instanceB.instanceID ∧
    lockopsLockName instanceA = lockopsLockName instanceB ∧
    lockopsLockName instanceA = "userPreferences-undefined-lockops" ∧
    keyLockName instanceA none "sortOrder" ≠
      keyLockName instanceB none "sortOrder" := by
  decide

/-- Claim C5: with a valid project id that has no stored sub-container, the
first access through the projects proxy creates an empty reactive
sub-container with a fresh identity, stores it, and returns it; the second
access returns the stored sub-container itself (same identity), leaves the
mapping unchanged, and allocates nothing. -/
theorem project_subcontainer_identity_stable (st : ProjectsState)
    (fresh : Nat) (pid : String) (hid : jsIntRegexTest pid = true)
    (habs : st pid = none) :
    projectsProxyGet st fresh pid =
      (.ok ⟨fresh, true, emptyContainer⟩,
        updProjects st pid (some ⟨fresh, true, emptyContainer⟩),
        fresh + 1) ∧
    projectsProxyGet
        (updProjects st pid (some ⟨fresh, true, emptyContainer⟩))
        (fresh + 1) pid =
      (.ok ⟨fresh, true, emptyContainer⟩,
        updProjects st pid (some ⟨fresh, true, emptyContainer⟩),
        fresh + 1) := by
  constructor
  · simp [projectsProxyGet, hid, habs]
  · simp [projectsProxyGet, hid, updProjects]

/-- Witness for claim C5 at project id 9000 on the empty mapping. -/
theorem project_subcontainer_identity_stable_witness :
    jsIntRegexTest "9000" = true ∧
    emptyProjects "9000" = none ∧
    projectsProxyGet emptyProjects 0 "9000" =
      (.ok ⟨0, true, emptyContainer⟩,
        updProjects emptyProjects "9000" (some ⟨0, true, emptyContainer⟩),
        1) ∧
    projectsProxyGet
        (updProjects emptyProjects "9000" (some ⟨0, true, emptyContainer⟩))
        1 "9000" =
      (.ok ⟨0, true, emptyContainer⟩,
        updProjects emptyProjects "9000" (some ⟨0, true, emptyContainer⟩),
        1) :=
  ⟨by decide, rfl,
    (project_subcontainer_identity_stable emptyProjects 0 "9000"
      (by decide) rfl).1,
    (project_subcontainer_identity_stable emptyProjects 0 "9000"
      (by decide) rfl).2⟩

/-- Claim C6, counterexample: the claim lists the string 0 among the
identifiers that must be rejected (a positive integer being required), but
the anchored digits-only test of the code accepts 0, and the access
creates and stores a sub-container for it. -/
theorem project_id_zero_accepted :
    jsIntRegexTest "0" = true ∧
    (projectsProxyGet emptyProjects 0 "0").1 =
      .ok ⟨0, true, emptyContainer⟩ ∧
    (projectsProxyGet emptyProjects 0 "0").2.1 "0" =
      some ⟨0, true, emptyContainer⟩ :=
  ⟨by decide, rfl, rfl⟩

/-- Claim C6, amended: accessing the projects mapping with an id that is
not a nonempty string of decimal digits (such as 3.5, -1, or abc) throws a
TypeError and neither creates nor stores any sub-container; an all-digits
id, including 0, is accepted. -/
theorem project_id_regex_gate (st : ProjectsState) (fresh : Nat)
    (pid : String) (h : jsIntRegexTest pid = false) :
    projectsProxyGet st fresh pid =
      (.error (.notAnIntegerProjectId pid), st, fresh) := by
  simp [projectsProxyGet, h]

/-- Witness for the amended claim C6 at the three identifiers of the
claim. -/
theorem project_id_regex_gate_witness :
    jsIntRegexTest "3.5" = false ∧
    jsIntRegexTest "-1" = false ∧
    jsIntRegexTest "abc" = false ∧
    projectsProxyGet emptyProjects 0 "3.5" =
      (.error (.notAnIntegerProjectId "3.5"), emptyProjects, 0) ∧
    projectsProxyGet emptyProjects 0 "-1" =
      (.error (.notAnIntegerProjectId "-1"), emptyProjects, 0) ∧
    projectsProxyGet emptyProjects 0 "abc" =
      (.error (.notAnIntegerProjectId "abc"), emptyProjects, 0) :=
  ⟨by decide, by decide, by decide,
    project_id_regex_gate emptyProjects 0 "3.5" (by decide),
    project_id_regex_gate emptyProjects 0 "-1" (by decide),
    project_id_regex_gate emptyProjects 0 "abc" (by decide)⟩

/-- Claim C7: deleting a registered key that is absent from the container
still succeeds (the container is pointwise unchanged) and hands the
deletion sentinel to the engine; the engine then builds a DELETE request
with an absent body on the endpoint of the slot, while a non-sentinel
value yields a PUT carrying the value. -/
theorem delete_absent_key_request_shape (reg : Registry) (c : Container)
    (k : String) (f : JsValue → Option JsValue)
    (hreg : reg.normalizeFn k = some f) (habs : c k = none) :
    siteProxyDeleteProperty reg c k =
      (updContainer c k none, some ⟨k, none, none⟩, none) ∧
    (∀ k2, updContainer c k none k2 = c k2) ∧
    requestFor ⟨k, none, none⟩ =
      ⟨"DELETE", userSitePreferencesPath k, none⟩ ∧
    (∀ pid, requestFor ⟨k, none, some pid⟩ =
      ⟨"DELETE", userProjectPreferencesPath pid k, none⟩) ∧
    (∀ v, requestFor ⟨k, some v, none⟩ =
      ⟨"PUT", userSitePreferencesPath k, some ⟨v⟩⟩) ∧
    (∀ v pid, requestFor ⟨k, some v, some pid⟩ =
      ⟨"PUT", userProjectPreferencesPath pid k, some ⟨v⟩⟩) := by
  refine ⟨?_, ?_, rfl, fun pid => rfl, fun v => rfl, fun v pid => rfl⟩
  · simp [siteProxyDeleteProperty, hreg]
  · intro k2
    unfold updContainer
    split
    · rename_i hk
      rw [hk, habs]
    · rfl

/-- Witness for claim C7: delete of the registered but absent key sortOrder
on the empty container. -/
theorem delete_absent_key_request_shape_witness :
    regId.normalizeFn "sortOrder" = some (fun v => some v) ∧
    emptyContainer "sortOrder" = none ∧
    siteProxyDeleteProperty regId emptyContainer "sortOrder" =
      (updContainer emptyContainer "sortOrder" none,
        some ⟨"sortOrder", none, none⟩, none) ∧
    requestFor ⟨"sortOrder", none, none⟩ =
      ⟨"DELETE", userSitePreferencesPath "sortOrder", none⟩ :=
  ⟨rfl, rfl,
    (delete_absent_key_request_shape regId emptyContainer "sortOrder"
      (fun v => some v) rfl rfl).1,
    (delete_absent_key_request_shape regId emptyContainer "sortOrder"
      (fun v => some v) rfl rfl).2.2.1⟩

/-- Claim C8: assigning or deleting a whole project sub-container through
the projects proxy always throws the unsupported-operation error and
leaves the projects mapping exactly as it was. -/
theorem whole_subcontainer_ops_rejected (st : ProjectsState) (pid : String)
    (v : JsValue) :
    projectsProxySet st pid v = (some .unsupportedSetProject, st) ∧
    projectsProxyDeleteProperty st pid =
      (some .unsupportedDeleteProject, st) :=
  ⟨rfl, rfl⟩

/-- Claim C9: a successful set stores exactly the output of the normalizer
for the key and input value, on the site container and on a project
sub-container alike, and the same normalized value is what is handed to
the engine; no raw input reaches a container. -/
theorem stored_value_is_normalized (sReg pReg : Registry)
    (c pc : Container) (pid k : String) (v nv : JsValue) :
    (sReg.normalize k v = .ok nv →
      siteProxySet sReg c k v =
        (updContainer c k (some nv), some ⟨k, some nv, none⟩, none)) ∧
    (pReg.normalize k v = .ok nv →
      projectPropSet pReg pid pc k v =
        (updContainer pc k (some nv), some ⟨k, some nv, some pid⟩,
          none)) := by
  constructor
  · intro he; simp [siteProxySet, he]
  · intro he; simp [projectPropSet, he]

/-- Witness for claim C9, with a normalizer that replaces the raw input by
a distinct normalized value. -/
theorem stored_value_is_normalized_witness :
    regConst.normalize "k" (.str "raw") = .ok (.str "normalized") ∧
    JsValue.str "normalized" ≠ JsValue.str "raw" ∧
    siteProxySet regConst emptyContainer "k" (.str "raw") =
      (updContainer emptyContainer "k" (some (.str "normalized")),
        some ⟨"k", some (.str "normalized"), none⟩, none) ∧
    updContainer emptyContainer "k" (some (.str "normalized")) "k" =
      some (.str "normalized") :=
  ⟨rfl, by decide,
    (stored_value_is_normalized regConst regConst emptyContainer
      emptyContainer "7" "k" (.str "raw") (.str "normalized")).1 rfl,
    rfl⟩

/-- Claim C10: when the snapshot already holds raw data for a project id,
the first access through the projects proxy wraps that data in place into
a reactive stored sub-container carrying the same entries, instead of
replacing it with an empty one, and every key-value pair of the snapshot
stays readable through the returned sub-container via the read
transform. -/
theorem snapshot_data_wrapped_in_place (pReg : Registry)
    (st : ProjectsState) (fresh i : Nat) (pid : String) (d : Container)
    (hid : jsIntRegexTest pid = true)
    (hdata : st pid = some ⟨i, false, d⟩) :
    projectsProxyGet st fresh pid =
      (.ok ⟨fresh, true, d⟩, updProjects st pid (some ⟨fresh, true, d⟩),
        fresh + 1) ∧
    (∀ k v, d k = some v → pReg.getProp d k = some v) := by
  constructor
  · simp [projectsProxyGet, hid, hdata]
  · intro k v hv
    simp [Registry.getProp, hv]

/-- Witness for claim C10: project 42 with snapshot entry color = green. -/
theorem snapshot_data_wrapped_in_place_witness :
    jsIntRegexTest "42" = true ∧
    snapProjects "42" = some ⟨0, false, snapColor⟩ ∧
    projectsProxyGet snapProjects 1 "42" =
      (.ok ⟨1, true, snapColor⟩,
        updProjects snapProjects "42" (some ⟨1, true, snapColor⟩), 2) ∧
    regEmpty.getProp snapColor "color" = some (.str "green") :=
  ⟨by decide, rfl,
    (snapshot_data_wrapped_in_place regEmpty snapProjects 1 0 "42"
      snapColor (by decide) rfl).1,
    (snapshot_data_wrapped_in_place regEmpty snapProjects 1 0 "42"
      snapColor (by decide) rfl).2 "color" (.str "green") rfl⟩

end UserPrefs
